import Mathlib

/-!
Shallow embedding of the tick-based simulator toys of the repository:
the odometer (`odometer_simulation/src/odometer.rs`), the tire-pressure
monitoring system (`tire_pressure_monitoring_system/src/tpms.rs`), the
climate controller (`climate_control/src/climate.rs`) and the
road-condition vehicle model (`road_condition_monitor/src/vehicle.rs`),
together with their driver loops.

Floating-point state (`f32` / `f64`) is modelled by exact rationals `ℚ`:
every constant appearing in the sources is a short decimal literal, the
operations used are `+ - * /`, comparison and `clamp`, and no claim under
verification depends on rounding of the binary floating-point formats.
Randomness is modelled by explicit delta parameters: wherever the Rust
code draws `rng.gen_range(a..b)`, the Lean operation takes the drawn
value as an argument, and theorems quantify over it (bounded by the draw
interval where a claim says so).
-/

namespace Sim

/-! ### Odometer (`odometer_simulation/src/odometer.rs`) -/

structure Odometer where
  total_kilometers : ℚ
  trip_meter : ℚ
  fuel_consumed : ℚ
  fuel_efficiency : ℚ
deriving Repr, DecidableEq

/-- `Odometer::new(fuel_efficiency)`. -/
def Odometer.new (fuel_efficiency : ℚ) : Odometer :=
  { total_kilometers := 0
    trip_meter := 0
    fuel_consumed := 0
    fuel_efficiency := fuel_efficiency }

/-- `Odometer::drive(speed, hours)`: distance = speed * hours; the total and
trip accumulators add the distance; fuel_consumed adds distance / fuel_efficiency. -/
def Odometer.drive (o : Odometer) (speed hours : ℚ) : Odometer :=
  let distance := speed * hours
  { o with
    total_kilometers := o.total_kilometers + distance
    trip_meter := o.trip_meter + distance
    fuel_consumed := o.fuel_consumed + distance / o.fuel_efficiency }

/-- `Odometer::reset_trip_meter()`. -/
def Odometer.reset_trip_meter (o : Odometer) : Odometer :=
  { o with trip_meter := 0 }

/-- A finite sequence of `drive` calls, each leg a `(speed, hours)` pair. -/
def Odometer.drives (o : Odometer) (legs : List (ℚ × ℚ)) : Odometer :=
  legs.foldl (fun acc leg => acc.drive leg.1 leg.2) o

theorem Odometer.drives_nil (o : Odometer) : o.drives [] = o := rfl

theorem Odometer.drives_cons (o : Odometer) (leg : ℚ × ℚ) (legs : List (ℚ × ℚ)) :
    o.drives (leg :: legs) = (o.drive leg.1 leg.2).drives legs := rfl

/-- C2: `Odometer::drive(speed, hours)` adds exactly speed * hours to both
`total_kilometers` and `trip_meter`, adds (speed * hours) / fuel_efficiency to
`fuel_consumed`, leaves `fuel_efficiency` unchanged (no other effect, and no
randomness: `drive` is a pure function of its arguments); consequently after any
finite sequence of `drive` calls, `total_kilometers` equals its initial value
plus the sum of the per-call speed * hours deltas. -/
theorem C2_drive_accumulator :
    (∀ (o : Odometer) (speed hours : ℚ),
      (o.drive speed hours).total_kilometers = o.total_kilometers + speed * hours ∧
      (o.drive speed hours).trip_meter = o.trip_meter + speed * hours ∧
      (o.drive speed hours).fuel_consumed
        = o.fuel_consumed + speed * hours / o.fuel_efficiency ∧
      (o.drive speed hours).fuel_efficiency = o.fuel_efficiency) ∧
    (∀ (o : Odometer) (legs : List (ℚ × ℚ)),
      (o.drives legs).total_kilometers
        = o.total_kilometers + (legs.map fun leg => leg.1 * leg.2).sum) := by
  constructor
  · intro o speed hours
    refine ⟨rfl, rfl, rfl, rfl⟩
  · intro o legs
    induction legs generalizing o with
    | nil => simp [Odometer.drives]
    | cons leg legs ih =>
      rw [Odometer.drives_cons, ih]
      simp [Odometer.drive]
      ring

/-- C6: `Odometer::reset_trip_meter` sets `trip_meter` to 0 and leaves
`total_kilometers`, `fuel_consumed` and `fuel_efficiency` unchanged. -/
theorem C6_reset_trip_meter_frame (o : Odometer) :
    o.reset_trip_meter.trip_meter = 0 ∧
    o.reset_trip_meter.total_kilometers = o.total_kilometers ∧
    o.reset_trip_meter.fuel_consumed = o.fuel_consumed ∧
    o.reset_trip_meter.fuel_efficiency = o.fuel_efficiency :=
  ⟨rfl, rfl, rfl, rfl⟩

/-! ### Tire-pressure monitoring system (`tire_pressure_monitoring_system/src/tpms.rs`) -/

structure Tire where
  pressure : ℚ
  is_safe : Bool
deriving Repr, DecidableEq

/-- `Tire::new(pressure)`: unconditionally sets `is_safe` to `true`. -/
def Tire.new (pressure : ℚ) : Tire :=
  { pressure := pressure, is_safe := true }

/-- `Tire::check_pressure(safe_pressure)`. -/
def Tire.check_pressure (t : Tire) (safe_pressure : ℚ) : Tire :=
  if t.pressure < safe_pressure then { t with is_safe := false }
  else { t with is_safe := true }

inductive TireStatus
  | Safe
  | Unsafe
deriving Repr, DecidableEq

/-- `Tire::status()`. -/
def Tire.status (t : Tire) : TireStatus :=
  if t.is_safe then .Safe else .Unsafe

/-- `Tire::adjust_pressure(delta)`: unclamped addition. -/
def Tire.adjust_pressure (t : Tire) (delta : ℚ) : Tire :=
  { t with pressure := t.pressure + delta }

structure TPMS where
  tires : List Tire
  safe_pressure : ℚ
  dtc_triggered : Bool
deriving Repr, DecidableEq

/-- `TPMS::new(safe_pressure, tire_pressures)`: `dtc_triggered` starts `false`. -/
def TPMS.new (safe_pressure : ℚ) (tire_pressures : List ℚ) : TPMS :=
  { tires := tire_pressures.map Tire.new
    safe_pressure := safe_pressure
    dtc_triggered := false }

/-- The loop body of `TPMS::check_all_tires`: checks each tire in order and
records whether any tire came out unsafe (the DTC flag, reset to `false`
before the loop, is set to `true` exactly when some checked tire is unsafe). -/
def checkTiresLoop (safe_pressure : ℚ) : List Tire → List Tire × Bool
  | [] => ([], false)
  | t :: ts =>
    let t' := t.check_pressure safe_pressure
    let r := checkTiresLoop safe_pressure ts
    (t' :: r.1, (!t'.is_safe || r.2))

/-- `TPMS::check_all_tires()`. -/
def TPMS.check_all_tires (m : TPMS) : TPMS :=
  let r := checkTiresLoop m.safe_pressure m.tires
  { m with tires := r.1, dtc_triggered := r.2 }

/-- `TPMS::is_dtc_triggered()`. -/
def TPMS.is_dtc_triggered (m : TPMS) : Bool :=
  m.dtc_triggered

/-- The per-tire statuses, in order (what `display_warnings` reports). -/
def TPMS.statuses (m : TPMS) : List TireStatus :=
  m.tires.map Tire.status

/-- `TPMS::simulate_pressure_change()`, with the per-tire random draws from
`[-0.5, 0.5)` supplied explicitly: `deltas i` is the value drawn for tire `i`. -/
def TPMS.simulate_pressure_change (m : TPMS) (deltas : ℕ → ℚ) : TPMS :=
  { m with tires := m.tires.enum.map fun p => p.2.adjust_pressure (deltas p.1) }

theorem checkTiresLoop_fst (sp : ℚ) (ts : List Tire) :
    (checkTiresLoop sp ts).1 = ts.map (Tire.check_pressure · sp) := by
  induction ts with
  | nil => rfl
  | cons t ts ih => simp [checkTiresLoop, ih]

theorem check_pressure_unsafe_iff (t : Tire) (sp : ℚ) :
    (!(t.check_pressure sp).is_safe) = decide (t.pressure < sp) := by
  by_cases h : t.pressure < sp <;> simp [Tire.check_pressure, h]

theorem checkTiresLoop_snd (sp : ℚ) (ts : List Tire) :
    (checkTiresLoop sp ts).2 = ts.any fun t => decide (t.pressure < sp) := by
  induction ts with
  | nil => rfl
  | cons t ts ih => simp [checkTiresLoop, ih, check_pressure_unsafe_iff]

theorem check_pressure_pressure (t : Tire) (sp : ℚ) :
    (t.check_pressure sp).pressure = t.pressure := by
  by_cases h : t.pressure < sp <;> simp [Tire.check_pressure, h]

theorem check_all_tires_tires (m : TPMS) :
    m.check_all_tires.tires = m.tires.map (Tire.check_pressure · m.safe_pressure) := by
  simp [TPMS.check_all_tires, checkTiresLoop_fst]

theorem check_all_tires_dtc (m : TPMS) :
    m.check_all_tires.dtc_triggered = m.tires.any fun t => decide (t.pressure < m.safe_pressure) := by
  simp [TPMS.check_all_tires, checkTiresLoop_snd]

theorem check_all_tires_safe_pressure (m : TPMS) :
    m.check_all_tires.safe_pressure = m.safe_pressure := rfl

theorem check_pressure_idem (t : Tire) (sp : ℚ) :
    (t.check_pressure sp).check_pressure sp = t.check_pressure sp := by
  by_cases h : t.pressure < sp <;> simp [Tire.check_pressure, h]

theorem TPMS.ext_fields {m₁ m₂ : TPMS} (h1 : m₁.tires = m₂.tires)
    (h2 : m₁.safe_pressure = m₂.safe_pressure)
    (h3 : m₁.dtc_triggered = m₂.dtc_triggered) : m₁ = m₂ := by
  cases m₁; cases m₂; simp_all

theorem check_all_tires_safeFlags (m : TPMS) :
    m.check_all_tires.tires.map Tire.is_safe
      = (m.tires.map Tire.pressure).map fun p => !decide (p < m.safe_pressure) := by
  rw [check_all_tires_tires, List.map_map, List.map_map]
  refine List.map_congr_left fun t _ => ?_
  by_cases h : t.pressure < m.safe_pressure <;>
    simp [Function.comp, Tire.check_pressure, h]

theorem any_pressure_map (sp : ℚ) (ts : List Tire) :
    ((ts.map Tire.pressure).any fun p => decide (p < sp))
      = ts.any fun t => decide (t.pressure < sp) := by
  induction ts with
  | nil => rfl
  | cons t ts ih => simp [ih]

theorem check_all_tires_dtc_pressures (m : TPMS) :
    m.check_all_tires.dtc_triggered
      = (m.tires.map Tire.pressure).any fun p => decide (p < m.safe_pressure) := by
  rw [check_all_tires_dtc, any_pressure_map]

/-- C3: on pressures `[32.0, 28.5, 31.0, 29.0]` with threshold `30.0`,
`check_all_tires` triggers the DTC and reports statuses
`[Safe, Unsafe, Safe, Unsafe]`; in general, after `check_all_tires` the DTC is
triggered iff some tire has pressure below the threshold, and each tire's
status is `Unsafe` iff its pressure is below the threshold. -/
theorem C3_check_all_tires_diagnostic :
    (((TPMS.new 30 [32, 28.5, 31, 29]).check_all_tires).is_dtc_triggered = true ∧
      ((TPMS.new 30 [32, 28.5, 31, 29]).check_all_tires).statuses
        = [.Safe, .Unsafe, .Safe, .Unsafe]) ∧
    (∀ m : TPMS,
      (m.check_all_tires.is_dtc_triggered = true ↔
        ∃ t ∈ m.tires, t.pressure < m.safe_pressure) ∧
      (∀ (i : ℕ) (t : Tire), m.tires[i]? = some t →
        ∃ t' : Tire, m.check_all_tires.tires[i]? = some t' ∧
          (t'.status = .Unsafe ↔ t.pressure < m.safe_pressure))) := by
  refine ⟨⟨?_, ?_⟩, fun m => ⟨?_, ?_⟩⟩
  · norm_num [TPMS.is_dtc_triggered, check_all_tires_dtc, TPMS.new, Tire.new,
      List.any_cons, List.any_nil]
  · norm_num [TPMS.statuses, check_all_tires_tires, TPMS.new, Tire.new,
      Tire.check_pressure, Tire.status]
  · simp [TPMS.is_dtc_triggered, check_all_tires_dtc, List.any_eq_true]
  · intro i t h
    refine ⟨t.check_pressure m.safe_pressure, ?_, ?_⟩
    · rw [check_all_tires_tires]
      simp [List.getElem?_map, h]
    · by_cases hp : t.pressure < m.safe_pressure <;>
        simp [Tire.check_pressure, Tire.status, hp]

/-- Witness for C3: instantiates the per-tire clause at tire index 1
(pressure 28.5) of the concrete four-tire system. -/
theorem C3_witness :
    ∃ t', ((TPMS.new 30 [32, 28.5, 31, 29]).check_all_tires).tires[1]? = some t' ∧
      (t'.status = .Unsafe ↔ (Tire.new 28.5).pressure
          < (TPMS.new 30 [32, 28.5, 31, 29]).safe_pressure) :=
  (C3_check_all_tires_diagnostic.2 (TPMS.new 30 [32, 28.5, 31, 29])).2 1
    (Tire.new 28.5) rfl

/-- C9: diagnostic evaluation is idempotent (running `check_all_tires` twice
equals running it once) and memoryless (the resulting per-tire safety flags
and DTC flag depend only on the current pressures and the threshold, not on
previously stored flag values). -/
theorem C9_check_all_tires_idempotent_memoryless :
    (∀ m : TPMS, m.check_all_tires.check_all_tires = m.check_all_tires) ∧
    (∀ m₁ m₂ : TPMS, m₁.safe_pressure = m₂.safe_pressure →
      m₁.tires.map Tire.pressure = m₂.tires.map Tire.pressure →
      m₁.check_all_tires.tires.map Tire.is_safe
          = m₂.check_all_tires.tires.map Tire.is_safe ∧
      m₁.check_all_tires.dtc_triggered = m₂.check_all_tires.dtc_triggered) := by
  constructor
  · intro m
    have hpress : m.check_all_tires.tires.map Tire.pressure = m.tires.map Tire.pressure := by
      rw [check_all_tires_tires, List.map_map]
      exact List.map_congr_left fun t _ => check_pressure_pressure t m.safe_pressure
    apply TPMS.ext_fields
    · simp only [check_all_tires_tires, check_all_tires_safe_pressure, List.map_map]
      exact List.map_congr_left fun t _ => check_pressure_idem t m.safe_pressure
    · rfl
    · rw [check_all_tires_dtc_pressures, check_all_tires_dtc_pressures,
        check_all_tires_safe_pressure, hpress]
  · intro m₁ m₂ hsp hps
    rw [check_all_tires_safeFlags, check_all_tires_safeFlags,
      check_all_tires_dtc_pressures, check_all_tires_dtc_pressures, hsp, hps]
    exact ⟨rfl, rfl⟩

/-- Witness for C9: two one-tire systems with the same pressure (28.5) and
threshold (30) but opposite stored flags produce the same diagnostic. -/
theorem C9_witness :
    (TPMS.mk [⟨28.5, true⟩] 30 false).check_all_tires.tires.map Tire.is_safe
        = (TPMS.mk [⟨28.5, false⟩] 30 true).check_all_tires.tires.map Tire.is_safe ∧
    (TPMS.mk [⟨28.5, true⟩] 30 false).check_all_tires.dtc_triggered
        = (TPMS.mk [⟨28.5, false⟩] 30 true).check_all_tires.dtc_triggered :=
  C9_check_all_tires_idempotent_memoryless.2
    (TPMS.mk [⟨28.5, true⟩] 30 false) (TPMS.mk [⟨28.5, false⟩] 30 true)
    rfl rfl

/-- C10: right after construction, before any `check_all_tires`, every tire
reports `Safe` and `is_dtc_triggered` is `false`, whatever the initial
pressures — in particular even for the one-tire system whose pressure 28.5 is
already below the threshold 30. -/
theorem C10_new_reports_all_safe (sp : ℚ) (ps : List ℚ) :
    (TPMS.new sp ps).is_dtc_triggered = false ∧
    (TPMS.new sp ps).statuses = (ps.map fun _ => TireStatus.Safe) ∧
    (TPMS.new 30 [28.5]).is_dtc_triggered = false ∧
    (TPMS.new 30 [28.5]).statuses = [.Safe] := by
  refine ⟨rfl, ?_, rfl, rfl⟩
  show (ps.map Tire.new).map Tire.status = ps.map fun _ => TireStatus.Safe
  rw [List.map_map]
  exact List.map_congr_left fun p _ => rfl

theorem foldl_adjust_replicate (n : ℕ) (t : Tire) (d : ℚ) :
    (List.foldl Tire.adjust_pressure t (List.replicate n d)).pressure
      = t.pressure + n * d := by
  induction n generalizing t with
  | zero => simp
  | succ n ih =>
    rw [List.replicate_succ, List.foldl_cons, ih]
    simp [Tire.adjust_pressure]
    ring

/-- C5: `Tire::adjust_pressure(delta)` adds the delta with no clamping (and
touches nothing else), so pressure is unbounded below: some finite sequence of
deltas, each drawn from `[-0.5, 0.5)`, drives the pressure from 32 below zero;
and the injected delta sequence `[0.3, -0.7]` applied to 32.0 yields exactly
32.3 then 31.6 (deterministically: the model is a pure function of the injected
sequence, so replaying the same sequence reproduces the same values). -/
theorem C5_adjust_pressure_unclamped :
    (∀ (t : Tire) (d : ℚ), (t.adjust_pressure d).pressure = t.pressure + d ∧
      (t.adjust_pressure d).is_safe = t.is_safe) ∧
    (∃ ds : List ℚ,
      ds.all (fun d => decide (-(1/2) ≤ d ∧ d < (1/2 : ℚ))) = true ∧
      (List.foldl Tire.adjust_pressure (Tire.new 32) ds).pressure < 0) ∧
    ((Tire.new 32).adjust_pressure 0.3).pressure = 32.3 ∧
    (((Tire.new 32).adjust_pressure 0.3).adjust_pressure (-0.7)).pressure = 31.6 := by
  refine ⟨fun t d => ⟨rfl, rfl⟩, ⟨List.replicate 65 (-(1/2)), ?_, ?_⟩,
    by norm_num [Tire.adjust_pressure, Tire.new], by norm_num [Tire.adjust_pressure, Tire.new]⟩
  · rw [List.all_eq_true]
    intro d hd
    rw [List.mem_replicate] at hd
    rw [hd.2, decide_eq_true_iff]
    norm_num
  · rw [foldl_adjust_replicate]
    norm_num [Tire.new]

/-! ### Road-condition vehicle model (`road_condition_monitor/src/vehicle.rs`) -/

structure Vehicle where
  speed : ℚ
  braking_efficiency : ℚ
  tire_condition : ℚ
  road_slope : ℚ
deriving Repr, DecidableEq

/-- `Vehicle::new()`. -/
def Vehicle.new : Vehicle :=
  { speed := 50, braking_efficiency := 0.9, tire_condition := 0.9, road_slope := 0 }

/-- `f32::clamp(lo, hi)` restricted to the non-NaN values the embedding carries:
below `lo` gives `lo`, above `hi` gives `hi`, otherwise the value itself. -/
def fclamp (x lo hi : ℚ) : ℚ :=
  if x < lo then lo else if x > hi then hi else x

/-- `Vehicle::update_speed`, with the random draw from `[-10.0, 10.0)` supplied
explicitly. -/
def Vehicle.update_speed (v : Vehicle) (speed_change : ℚ) : Vehicle :=
  { v with speed := fclamp (v.speed + speed_change) 0 150 }

/-- `Vehicle::update_road_slope`, with the random draw from `[-5.0, 5.0)`
supplied explicitly. -/
def Vehicle.update_road_slope (v : Vehicle) (slope_change : ℚ) : Vehicle :=
  { v with road_slope := fclamp (v.road_slope + slope_change) (-10) 10 }

/-- `Vehicle::update_tire_condition`, with the random draw from `[-0.02, 0.0)`
supplied explicitly. -/
def Vehicle.update_tire_condition (v : Vehicle) (wear : ℚ) : Vehicle :=
  { v with tire_condition := fclamp (v.tire_condition + wear) 0.5 1 }

/-- One update call of the simulation, tagged with its drawn delta. -/
inductive VehicleUpdate
  | speedU (d : ℚ)
  | slopeU (d : ℚ)
  | wearU (d : ℚ)
deriving Repr

/-- The delta of an update lies in the interval the Rust code draws it from. -/
def VehicleUpdate.valid : VehicleUpdate → Prop
  | .speedU d => -10 ≤ d ∧ d < 10
  | .slopeU d => -5 ≤ d ∧ d < 5
  | .wearU d => -0.02 ≤ d ∧ d < 0

def Vehicle.applyUpdate (v : Vehicle) : VehicleUpdate → Vehicle
  | .speedU d => v.update_speed d
  | .slopeU d => v.update_road_slope d
  | .wearU d => v.update_tire_condition d

/-- An arbitrary interleaving of the three update calls. -/
def Vehicle.applyUpdates (v : Vehicle) (us : List VehicleUpdate) : Vehicle :=
  us.foldl Vehicle.applyUpdate v

/-- The clamp invariants of the spec: speed in `[0, 150]`, road slope in
`[-10, 10]`, tire condition in `[0.5, 1.0]`. -/
def Vehicle.inBounds (v : Vehicle) : Prop :=
  (0 ≤ v.speed ∧ v.speed ≤ 150) ∧
  (-10 ≤ v.road_slope ∧ v.road_slope ≤ 10) ∧
  ((0.5 : ℚ) ≤ v.tire_condition ∧ v.tire_condition ≤ 1)

theorem fclamp_mem {lo hi : ℚ} (x : ℚ) (h : lo ≤ hi) :
    lo ≤ fclamp x lo hi ∧ fclamp x lo hi ≤ hi := by
  unfold fclamp
  split_ifs with h1 h2 <;> constructor <;> linarith

theorem applyUpdate_inBounds (v : Vehicle) (u : VehicleUpdate) (hv : v.inBounds) :
    (v.applyUpdate u).inBounds := by
  obtain ⟨hs, hr, ht⟩ := hv
  cases u with
  | speedU d => exact ⟨fclamp_mem (v.speed + d) (by norm_num), hr, ht⟩
  | slopeU d => exact ⟨hs, fclamp_mem (v.road_slope + d) (by norm_num), ht⟩
  | wearU d => exact ⟨hs, hr, fclamp_mem (v.tire_condition + d) (by norm_num)⟩

theorem applyUpdates_inBounds (us : List VehicleUpdate) (v : Vehicle)
    (hv : v.inBounds) : (v.applyUpdates us).inBounds := by
  induction us generalizing v with
  | nil => exact hv
  | cons u us ih => exact ih _ (applyUpdate_inBounds v u hv)

/-- C1: starting from `Vehicle::new()` (speed 50, road slope 0, tire condition
0.9), after any interleaving of `update_speed`, `update_road_slope` and
`update_tire_condition` with arbitrary deltas from their draw intervals, speed
lies in `[0, 150]`, road slope in `[-10, 10]` and tire condition in `[0.5, 1]`. -/
theorem C1_vehicle_clamp_invariants (us : List VehicleUpdate)
    (_h : ∀ u ∈ us, u.valid) : (Vehicle.new.applyUpdates us).inBounds := by
  exact applyUpdates_inBounds us Vehicle.new
    ⟨by norm_num [Vehicle.new], by norm_num [Vehicle.new], by norm_num [Vehicle.new]⟩

/-- Witness for C1: a concrete interleaving of one speed update and one wear
update, both deltas inside their draw intervals. -/
theorem C1_witness :
    (Vehicle.new.applyUpdates [.speedU 3, .wearU (-0.01)]).inBounds :=
  C1_vehicle_clamp_invariants [.speedU 3, .wearU (-0.01)] (by
    intro u hu
    simp only [List.mem_cons, List.not_mem_nil, or_false] at hu
    rcases hu with rfl | rfl <;> norm_num [VehicleUpdate.valid])

/-! ### Climate controller (`climate_control/src/climate.rs`) -/

structure ClimateControlSystem where
  current_temperature : ℚ
  desired_temperature : ℚ
  external_temperature : ℚ
deriving Repr, DecidableEq

/-- `ClimateControlSystem::new(initial_temperature, external_temperature)`:
the desired temperature starts equal to the initial temperature. -/
def ClimateControlSystem.new (initial_temperature external_temperature : ℚ) :
    ClimateControlSystem :=
  { current_temperature := initial_temperature
    desired_temperature := initial_temperature
    external_temperature := external_temperature }

/-- Models `f32::partial_cmp` on the embedded temperatures. `partial_cmp`
returns `None` exactly when an operand is NaN; the rational embedding carries
the non-NaN float values, on which the comparison always succeeds, so the
result is `some` of the three-way comparison. -/
def tempCmp (a b : ℚ) : Option Ordering :=
  some (if a < b then .lt else if b < a then .gt else .eq)

/-- `ClimateControlSystem::adjust_temperature`, with the `unwrap` on the
`partial_cmp` result modelled explicitly: a `none` result would mean the source
panics. Returns the new state and the branch taken (`lt` = heating up,
`gt` = cooling down, `eq` = "Desired temperature reached"). -/
def ClimateControlSystem.adjust_temperature_run (s : ClimateControlSystem) :
    Option (ClimateControlSystem × Ordering) :=
  (tempCmp s.current_temperature s.desired_temperature).map fun o =>
    match o with
    | .lt => ({ s with current_temperature := s.current_temperature + 0.5 }, .lt)
    | .gt => ({ s with current_temperature := s.current_temperature - 0.5 }, .gt)
    | .eq => (s, .eq)

/-- The total form of `adjust_temperature` (the unwrap never fires, see C8). -/
def ClimateControlSystem.adjust_temperature (s : ClimateControlSystem) :
    ClimateControlSystem × Ordering :=
  if s.current_temperature < s.desired_temperature then
    ({ s with current_temperature := s.current_temperature + 0.5 }, .lt)
  else if s.desired_temperature < s.current_temperature then
    ({ s with current_temperature := s.current_temperature - 0.5 }, .gt)
  else (s, .eq)

/-- `ClimateControlSystem::simulate_external_conditions`, with the two random
draws (external delta from `[-0.5, 0.5)` and new desired temperature from
`[18.0, 26.0)`) supplied explicitly. -/
def ClimateControlSystem.simulate_external_conditions (s : ClimateControlSystem)
    (delta new_desired : ℚ) : ClimateControlSystem :=
  { s with
    external_temperature := s.external_temperature + delta
    desired_temperature := new_desired }

/-- `n` successive `adjust_temperature` calls (the desired temperature is not
changed in between). -/
def ClimateControlSystem.adjustN (s : ClimateControlSystem) : ℕ → ClimateControlSystem
  | 0 => s
  | n + 1 => (s.adjustN n).adjust_temperature.1

theorem adjustN_heating (e c d : ℚ) (n : ℕ) (h : c + n * (1/2) ≤ d) :
    (ClimateControlSystem.mk c d e).adjustN n
      = ClimateControlSystem.mk (c + n * (1/2)) d e := by
  induction n with
  | zero => norm_num [ClimateControlSystem.adjustN]
  | succ n ih =>
    have hn : c + n * (1/2) ≤ d := by
      push_cast at h
      linarith
    have hlt : c + n * (1/2) < d := by
      push_cast at h
      linarith
    show ((ClimateControlSystem.mk c d e).adjustN n).adjust_temperature.1 = _
    rw [ih hn]
    simp only [ClimateControlSystem.adjust_temperature, if_pos hlt]
    congr 1
    push_cast
    norm_num
    ring

/-- C4: from current 20.0 and desired 25.0 (any external temperature `e`),
after exactly 10 `adjust_temperature` calls the current temperature is 25.0 and
the reached condition holds (current equals desired); the 11th call leaves the
state unchanged and reports reached (`eq`). In general each call moves the
current temperature toward the desired one by exactly 0.5 when they differ and
leaves it unchanged when they are equal. -/
theorem C4_climate_threshold_rule (e : ℚ) :
    ((ClimateControlSystem.mk 20 25 e).adjustN 10).current_temperature = 25 ∧
    ((ClimateControlSystem.mk 20 25 e).adjustN 10).desired_temperature = 25 ∧
    ((ClimateControlSystem.mk 20 25 e).adjustN 10).adjust_temperature
      = ((ClimateControlSystem.mk 20 25 e).adjustN 10, .eq) ∧
    (∀ s : ClimateControlSystem,
      (s.current_temperature < s.desired_temperature →
        s.adjust_temperature
          = ({ s with current_temperature := s.current_temperature + 0.5 }, .lt)) ∧
      (s.desired_temperature < s.current_temperature →
        s.adjust_temperature
          = ({ s with current_temperature := s.current_temperature - 0.5 }, .gt)) ∧
      (s.current_temperature = s.desired_temperature →
        s.adjust_temperature = (s, .eq))) := by
  have h10 : (ClimateControlSystem.mk 20 25 e).adjustN 10 = ClimateControlSystem.mk 25 25 e := by
    have := adjustN_heating e 20 25 10 (by norm_num)
    rw [this]
    norm_num
  refine ⟨by rw [h10], by rw [h10], ?_, ?_⟩
  · rw [h10]
    norm_num [ClimateControlSystem.adjust_temperature]
  · intro s
    refine ⟨fun h => ?_, fun h => ?_, fun h => ?_⟩
    · simp only [ClimateControlSystem.adjust_temperature, if_pos h]
    · simp only [ClimateControlSystem.adjust_temperature,
        if_neg (not_lt.mpr h.le), if_pos h]
    · simp only [ClimateControlSystem.adjust_temperature, h, lt_irrefl, if_neg,
        not_false_iff, if_false]

/-- Witness for C4: the heating branch at the concrete state (20, 25, 15). -/
theorem C4_witness :
    (ClimateControlSystem.mk 20 25 15).adjust_temperature
      = (ClimateControlSystem.mk (20 + 0.5) 25 15, .lt) :=
  ((C4_climate_threshold_rule 15).2.2.2 (ClimateControlSystem.mk 20 25 15)).1
    (by norm_num)

/-- C8: the state-update operations are total over the embedded state with no
error conditions: in particular the only potentially-panicking spot, the
`unwrap` of `partial_cmp` inside `adjust_temperature`, never fails on the
(non-NaN) embedded temperatures — the checked run always returns `some` and
agrees with the total model. The remaining operations (`drive`,
`reset_trip_meter`, `simulate_external_conditions`, `check_all_tires`,
`adjust_pressure`, `update_speed`, `update_road_slope`,
`update_tire_condition`) are total functions of their arguments, stated here as
producing a defined result on every input. -/
theorem C8_state_updates_total :
    (∀ s : ClimateControlSystem,
      s.adjust_temperature_run = some s.adjust_temperature) ∧
    (∀ (o : Odometer) (speed hours : ℚ), ∃ o' : Odometer, o.drive speed hours = o') ∧
    (∀ o : Odometer, ∃ o' : Odometer, o.reset_trip_meter = o') ∧
    (∀ (s : ClimateControlSystem) (d nd : ℚ),
      ∃ s' : ClimateControlSystem, s.simulate_external_conditions d nd = s') ∧
    (∀ m : TPMS, ∃ m' : TPMS, m.check_all_tires = m') ∧
    (∀ (t : Tire) (d : ℚ), ∃ t' : Tire, t.adjust_pressure d = t') ∧
    (∀ (v : Vehicle) (d : ℚ), ∃ v' : Vehicle, v.update_speed d = v') ∧
    (∀ (v : Vehicle) (d : ℚ), ∃ v' : Vehicle, v.update_road_slope d = v') ∧
    (∀ (v : Vehicle) (d : ℚ), ∃ v' : Vehicle, v.update_tire_condition d = v') := by
  refine ⟨fun s => ?_, fun o s h => ⟨_, rfl⟩, fun o => ⟨_, rfl⟩, fun s d nd => ⟨_, rfl⟩,
    fun m => ⟨_, rfl⟩, fun t d => ⟨_, rfl⟩, fun v d => ⟨_, rfl⟩, fun v d => ⟨_, rfl⟩,
    fun v d => ⟨_, rfl⟩⟩
  unfold ClimateControlSystem.adjust_temperature_run tempCmp
    ClimateControlSystem.adjust_temperature
  by_cases h1 : s.current_temperature < s.desired_temperature
  · simp [h1]
  · by_cases h2 : s.desired_temperature < s.current_temperature
    · simp [h1, h2]
    · simp [h1, h2]

/-! ### Driver loops (`tire_pressure_monitoring_system/src/main.rs` and
`road_condition_monitor/src/simulation.rs`) -/

/-- Runs a loop whose body `f` either continues with a new state (`some`) or
exits (`none`), for at most `n` iterations. A `none` result means the loop
exited by itself within `n` iterations; `some s` means it is still running
with state `s` after `n` iterations. -/
def iterStep {S : Type} (f : S → Option S) : ℕ → S → Option S
  | 0, s => some s
  | n + 1, s =>
    match f s with
    | none => none
    | some s' => iterStep f n s'

inductive RoadCondition
  | Dry
  | Wet
  | Icy
deriving Repr, DecidableEq

/-- The random draws of one iteration of the road-condition simulation loop. -/
structure RoadTickInput where
  cond : RoadCondition
  speed_change : ℚ
  slope_change : ℚ
  wear : ℚ

/-- One iteration of the `loop` body of `run_simulation`: the three vehicle
updates (the traction and stopping-distance computations and the printing read
the state without changing it). -/
def roadBody (inp : RoadTickInput) (v : Vehicle) : Vehicle :=
  ((v.update_speed inp.speed_change).update_road_slope inp.slope_change).update_tire_condition
    inp.wear

/-- The `loop { ... }` of `run_simulation` as a step function: the body
contains no `break` or `return`, so every iteration continues. The counter
indexes the per-iteration random draws. -/
def roadStep (env : ℕ → RoadTickInput) (s : ℕ × Vehicle) : Option (ℕ × Vehicle) :=
  some (s.1 + 1, roadBody (env s.1) s.2)

/-- One iteration of the tire-monitor `main` loop body: `check_all_tires`,
display (no state change), then `simulate_pressure_change` with the injected
per-tire deltas. -/
def tireBody (deltas : ℕ → ℚ) (m : TPMS) : TPMS :=
  m.check_all_tires.simulate_pressure_change deltas

/-- The tire-monitor `main` loop `for _ in 0..10 { ... }` as a step function:
it continues while the iteration counter is below 10 and exits once it
reaches 10 (after which `main` prints "Simulation completed." and returns). -/
def tireStep (deltas : ℕ → ℕ → ℚ) (s : ℕ × TPMS) : Option (ℕ × TPMS) :=
  if s.1 < 10 then some (s.1 + 1, tireBody (deltas s.1) s.2) else none

/-- C7 counterexample: the tire-monitor driver loop terminates by itself,
contradicting the claim that it runs until externally terminated. From the
initial counter 0 and the initial pressures of `main`, eleven loop steps
reach the exit (`none`) — here with the all-zero injected delta sequence. -/
theorem C7_counterexample :
    iterStep (tireStep fun _ _ => 0) 11 (0, TPMS.new 30 [32, 28.5, 31, 29]) = none := by
  rfl

theorem tireStep_exits (deltas : ℕ → ℕ → ℚ) :
    ∀ (n i : ℕ) (m : TPMS), 10 - i < n →
      iterStep (tireStep deltas) n (i, m) = none := by
  intro n
  induction n with
  | zero =>
    intro i m h
    omega
  | succ n ih =>
    intro i m h
    by_cases hi : i < 10
    · simp [iterStep, tireStep, hi]
      exact ih (i + 1) (tireBody (deltas i) m) (by omega)
    · simp [iterStep, tireStep, hi]

/-- C7 amended: the vehicle/road-monitor driver loop is unbounded (it never
exits by itself: after any number of iterations, for any injected draws, it is
still running), while the tire-monitor driver loop is bounded: starting from
iteration counter 0 it has exited by itself after 11 or more steps, for every
injected delta sequence and every initial TPMS state. -/
theorem C7_amended_loop_termination :
    (∀ (env : ℕ → RoadTickInput) (n : ℕ) (s : ℕ × Vehicle),
      ∃ s' : ℕ × Vehicle, iterStep (roadStep env) n s = some s') ∧
    (∀ (deltas : ℕ → ℕ → ℚ) (m : TPMS) (n : ℕ), 11 ≤ n →
      iterStep (tireStep deltas) n (0, m) = none) := by
  constructor
  · intro env n
    induction n with
    | zero => exact fun s => ⟨s, rfl⟩
    | succ n ih =>
      intro s
      obtain ⟨s'', h⟩ := ih (s.1 + 1, roadBody (env s.1) s.2)
      exact ⟨s'', h⟩
  · intro deltas m n hn
    exact tireStep_exits deltas n 0 m (by omega)

/-- Witness for C7 (amended): the exit observed at 12 steps on a one-tire
system with zero injected deltas. -/
theorem C7_witness :
    iterStep (tireStep fun _ _ => 0) 12 (0, TPMS.new 30 [32]) = none :=
  C7_amended_loop_termination.2 (fun _ _ => 0) (TPMS.new 30 [32]) 12 (by norm_num)

end Sim
